import Mathlib

/-!
Verification of the sea-level series computation of `src/streamlit_app.py`.

The script's only computational core is `load_sea_level_data` (lines 66-88):
it builds a dataframe over a fixed 36-year measurement table with columns
`year`, `sea_level_mm`, `sea_level_cm = sea_level_mm / 10`,
`annual_rise = sea_level_mm.diff()` and
`5yr_avg = annual_rise.rolling(window=5, center=True).mean()`,
plus three summary scalars (lines 96-113) and a CSV export (lines 528-534).

The embedding below models the dataframe as a list of `SeriesPoint` records,
pandas `NaN` cells as `Option.none`, and the float arithmetic as exact
rational arithmetic over `ℚ` (every quantity involved is a quotient of
integers, so this is the intended real-number semantics of the float code).

pandas semantics captured here:
  - `Series.diff()` puts `NaN` at index 0 and `x[i] - x[i-1]` elsewhere;
  - `rolling(window=5, center=True).mean()` uses the centered index window
    `[i-2, i+2]`; with the default `min_periods = window = 5` the result is
    `NaN` unless the window is entirely in range AND all five entries are
    non-`NaN`, and otherwise is the mean of the five entries;
  - `Series.mean()` skips `NaN` entries and is `NaN` on an all-`NaN` input;
  - `Series.tail(5)` keeps the last five entries;
  - `DataFrame.to_csv(index=False)` emits every column of the frame, one
    row per dataframe row, with `NaN` cells left blank.
-/

/-- One raw input entry: a calendar year and the cumulative sea-level rise
in millimetres measured for that year. In `src/streamlit_app.py` these are
the paired lists `years` and `sea_levels` (lines 68-74). -/
structure Measurement where
  year : Int
  cumulative_rise_mm : Int
deriving Repr, DecidableEq

/-- The fixture years `list(range(1989, 2025))` (line 68). -/
def fixtureYears : List Int := (List.range 36).map (fun i => (1989 : Int) + i)

/-- The fixture cumulative-rise values `sea_levels` (lines 69-74). -/
def fixtureSeaLevels : List Int :=
  [0, 2, 4, 7, 9, 12, 14, 16, 19, 22,
   24, 27, 30, 32, 35, 38, 41, 44, 47, 50,
   53, 57, 60, 63, 67, 70, 74, 77, 81, 85,
   89, 93, 97, 101, 105, 110]

/-- The `annual_rise` column (line 83): `df['sea_level_mm'].diff()` read at
index `i`; pandas yields `NaN` at index 0, modelled as `none`. -/
def annualRise (xs : List Int) (i : Nat) : Option Int :=
  if 1 ≤ i ∧ i < xs.length then some (xs.getD i 0 - xs.getD (i - 1) 0)
  else none

/-- The `5yr_avg` column (line 84):
`df['annual_rise'].rolling(window=5, center=True).mean()` read at index `i`.
The centered window is `[i-2, i+2]`; with `min_periods` defaulting to the
window size 5, pandas yields `NaN` unless the window lies entirely in range
and all five `annual_rise` entries are themselves non-`NaN`. -/
def movingAvg5 (xs : List Int) (i : Nat) : Option ℚ :=
  if 2 ≤ i ∧ i + 2 < xs.length then
    (annualRise xs (i - 2)).bind fun a =>
    (annualRise xs (i - 1)).bind fun b =>
    (annualRise xs i).bind fun c =>
    (annualRise xs (i + 1)).bind fun d =>
    (annualRise xs (i + 2)).map fun e =>
      ((a + b + c + d + e : Int) : ℚ) / 5
  else none

/-- One row of the derived dataframe built by `load_sea_level_data`
(lines 76-84): the raw copies, the centimetre conversion, and the two
derived columns with `NaN` as `none`. -/
structure SeriesPoint where
  year : Int
  sea_level_mm : Int
  sea_level_cm : ℚ
  annual_rise : Option Int
  five_yr_avg : Option ℚ
deriving Repr

/-- The dataframe construction of `load_sea_level_data` (lines 76-86)
generalised to an arbitrary pair of equal-length year/value columns:
row `i` copies `year` and `sea_level_mm`, computes
`sea_level_cm = sea_level_mm / 10`, and reads the `diff` and centered
rolling-mean columns at `i`. -/
def seriesOf (years mm : List Int) : List SeriesPoint :=
  (List.range mm.length).map (fun i =>
    { year := years.getD i 0
      sea_level_mm := mm.getD i 0
      sea_level_cm := (mm.getD i 0 : ℚ) / 10
      annual_rise := annualRise mm i
      five_yr_avg := movingAvg5 mm i })

/-- `load_sea_level_data()` (lines 66-88): the derived dataframe over the
fixed fixture table. -/
def load_sea_level_data : List SeriesPoint := seriesOf fixtureYears fixtureSeaLevels

/-- A default all-empty row, used only as the out-of-range fallback of
list reads on the concrete fixture (never actually hit). -/
def emptyPoint : SeriesPoint :=
  { year := 0, sea_level_mm := 0, sea_level_cm := 0,
    annual_rise := none, five_yr_avg := none }

/-- `df['sea_level_mm'].iloc[-1] / 35` (line 101): the dashboard's
"mean annual rate" metric, with the 35-year span hard-coded. -/
def avg_rise : ℚ := ((load_sea_level_data.getLastD emptyPoint).sea_level_mm : ℚ) / 35

/-- pandas `Series.mean()`: the mean of the non-`NaN` entries, `NaN` when
every entry is `NaN`. -/
def meanDefined (xs : List (Option ℚ)) : Option ℚ :=
  let vals := xs.filterMap id
  if vals.length = 0 then none else some (vals.sum / (vals.length : ℚ))

/-- The `annual_rise` column of the fixture dataframe as a float series. -/
def annualRiseColumn : List (Option ℚ) :=
  load_sea_level_data.map (fun p => p.annual_rise.map (fun z => (z : ℚ)))

/-- `df['annual_rise'].tail(5).mean()` (line 109): the dashboard's
"recent 5 year" metric, a trailing mean of the raw delta column. -/
def recent_5yr : Option ℚ :=
  meanDefined (annualRiseColumn.drop (annualRiseColumn.length - 5))

/-- `(recent_5yr/avg_rise - 1)*100` (line 113): the recent-rate-versus-mean
comparison percentage; `NaN` propagates from `recent_5yr`. -/
def pct_vs_avg : Option ℚ :=
  recent_5yr.map (fun r => (r / avg_rise - 1) * 100)

/-- The trailing statistic of line 109 recomputed from the centered
moving-average column `5yr_avg` instead of the raw `annual_rise` column.
The spec asserts the dashboard uses the raw trailing deltas, NOT this
quantity; it is defined only to be compared against `recent_5yr`. -/
def recent_5yr_from_moving_avg_column : Option ℚ :=
  let col := load_sea_level_data.map (fun p => p.five_yr_avg)
  meanDefined (col.drop (col.length - 5))

/-- Modelled from the spec: the error taxonomy of §7. `src/streamlit_app.py`
contains no error types; the spec's design module declares
`InvalidInputError` (malformed year ordering/gaps, naming the offending
index), `NonMonotonicDataError` (a decreasing cumulative value, naming the
offending index) and `DegenerateSeriesError` (summary statistics undefined
for a single-point series). -/
inductive BuildError where
  | invalidInput (index : Nat)
  | nonMonotonicData (index : Nat)
  | degenerateSeries
deriving Repr, DecidableEq

/-- Index of the first adjacent-pair violation of `p` in a list: `some i`
means `p` holds of the pair at indices `(i-1, i)` and of no earlier pair. -/
def firstViolation (p : Measurement → Measurement → Bool) :
    List Measurement → Option Nat
  | a :: b :: rest =>
      if p a b then some 1
      else (firstViolation p (b :: rest)).map (fun j => j + 1)
  | _ => none

/-- Year-ordering violation between adjacent entries: the later entry's
year is not the earlier one plus one (wrong ordering or a gap). -/
def yearBad (a b : Measurement) : Bool := b.year ≠ a.year + 1

/-- Monotonicity violation between adjacent entries: the later cumulative
value is strictly below the earlier one. -/
def monoBad (a b : Measurement) : Bool := b.cumulative_rise_mm < a.cumulative_rise_mm

/-- Modelled from the spec: the validating builder `build` of §4.1, which
`src/streamlit_app.py` does not contain (the script computes the same
columns but only over its compiled-in fixture, with no validation). Per
the spec, the input must be non-empty with years strictly increasing by
one (else `InvalidInputError` naming the offending index) and cumulative
values non-decreasing (else `NonMonotonicDataError`); on valid input it
returns the derived series, whose arithmetic is exactly the source's
(lines 76-86, via `seriesOf`). -/
def build (ms : List Measurement) : Except BuildError (List SeriesPoint) :=
  if ms.isEmpty then .error (.invalidInput 0)
  else
    match firstViolation yearBad ms with
    | some i => .error (.invalidInput i)
    | none =>
      match firstViolation monoBad ms with
      | some i => .error (.nonMonotonicData i)
      | none => .ok (seriesOf (ms.map Measurement.year) (ms.map Measurement.cumulative_rise_mm))

/-- Modelled from the spec: the "mean annual rate" summary of §4.1 computed
on a builder output — the last point's `cumulative_rise_mm` divided by
`(last.year - first.year)`, failing with `DegenerateSeriesError` when that
span is zero (single-point series). The source (line 101) computes the
same quotient with the fixture's 35-year span hard-coded and no guard. -/
def mean_annual_rate (ps : List SeriesPoint) : Except BuildError ℚ :=
  match ps.head?, ps.getLast? with
  | some f, some l =>
      if l.year = f.year then .error .degenerateSeries
      else .ok ((l.sea_level_mm : ℚ) / ((l.year - f.year : Int) : ℚ))
  | _, _ => .error .degenerateSeries

/-- A cell of the exported delimited text file: an integer, a float, or the
blank that `to_csv` writes for `NaN`. -/
inductive Cell where
  | int (z : Int)
  | rat (q : ℚ)
  | blank
deriving Repr

/-- The header of `df.to_csv(index=False)` (line 528): every column of the
dataframe built by `load_sea_level_data`, in frame order. -/
def csv_header : List String :=
  ["year", "sea_level_mm", "sea_level_cm", "annual_rise", "5yr_avg"]

/-- The data rows of `df.to_csv(index=False)` (line 528): one row per
series point, carrying all five column values of that point. -/
def csv_rows : List (List Cell) :=
  load_sea_level_data.map (fun p =>
    [Cell.int p.year, Cell.int p.sea_level_mm, Cell.rat p.sea_level_cm,
     p.annual_rise.elim Cell.blank Cell.int,
     p.five_yr_avg.elim Cell.blank Cell.rat])

/-- The columns selected into the on-screen table `display_df`
(line 181) — `df[['year', 'sea_level_cm', 'annual_rise']]` — before they
are renamed (line 182) for display. This table is shown in an expander;
it is NOT what the download button exports. -/
def display_df_selected_columns : List String :=
  ["year", "sea_level_cm", "annual_rise"]

/-- The spec's six-point worked example
`[(1989,0), (1990,2), (1991,4), (1992,7), (1993,9), (1994,12)]`. -/
def ex6 : List Measurement :=
  [⟨1989, 0⟩, ⟨1990, 2⟩, ⟨1991, 4⟩, ⟨1992, 7⟩, ⟨1993, 9⟩, ⟨1994, 12⟩]

/-- The builder output on the six-point example. -/
def ex6Series : List SeriesPoint :=
  seriesOf (ex6.map Measurement.year) (ex6.map Measurement.cumulative_rise_mm)

/-- A two-point input with consecutive years whose cumulative value drops. -/
def exNonMono : List Measurement := [⟨1989, 5⟩, ⟨1990, 3⟩]

/-- A two-point input with a gap in the years. -/
def exYearGap : List Measurement := [⟨1989, 0⟩, ⟨1991, 2⟩]

/-! ### Shared lemmas about the embedded operations -/

theorem getD_map_get {α β : Type} (f : α → β) (l : List α) (i : Nat)
    (hi : i < l.length) (d : β) : (l.map f).getD i d = f (l.get ⟨i, hi⟩) := by
  simp [List.getD_eq_getElem?_getD, List.getElem?_map, List.getElem?_eq_getElem hi]

theorem seriesOf_length (ys mm : List Int) : (seriesOf ys mm).length = mm.length := by
  simp [seriesOf]

theorem seriesOf_get (ys mm : List Int) (i : Nat) (hi : i < (seriesOf ys mm).length) :
    (seriesOf ys mm).get ⟨i, hi⟩ =
      { year := ys.getD i 0
        sea_level_mm := mm.getD i 0
        sea_level_cm := (mm.getD i 0 : ℚ) / 10
        annual_rise := annualRise mm i
        five_yr_avg := movingAvg5 mm i } := by
  simp [seriesOf] at hi ⊢

theorem build_ok (ms : List Measurement) (ps : List SeriesPoint) (h : build ms = .ok ps) :
    ps = seriesOf (ms.map Measurement.year) (ms.map Measurement.cumulative_rise_mm) := by
  unfold build at h
  split at h
  · cases h
  · split at h
    · cases h
    · split at h
      · cases h
      · cases h; rfl

theorem build_ok_length (ms : List Measurement) (ps : List SeriesPoint)
    (h : build ms = .ok ps) : ps.length = ms.length := by
  rw [build_ok ms ps h, seriesOf_length, List.length_map]

theorem annualRise_zero (mm : List Int) : annualRise mm 0 = none := by
  simp [annualRise]

theorem annualRise_pos (mm : List Int) (i : Nat) (h1 : 1 ≤ i) (h2 : i < mm.length) :
    annualRise mm i = some (mm.getD i 0 - mm.getD (i - 1) 0) := by
  simp [annualRise, h1, h2]

theorem movingAvg5_some (mm : List Int) (i : Nat) (h3 : 3 ≤ i) (hn : i + 3 ≤ mm.length) :
    movingAvg5 mm i =
      some ((((mm.getD (i - 2) 0 - mm.getD (i - 3) 0) +
              (mm.getD (i - 1) 0 - mm.getD (i - 2) 0) +
              (mm.getD i 0 - mm.getD (i - 1) 0) +
              (mm.getD (i + 1) 0 - mm.getD i 0) +
              (mm.getD (i + 2) 0 - mm.getD (i + 1) 0) : Int) : ℚ) / 5) := by
  rw [movingAvg5, if_pos (by omega : 2 ≤ i ∧ i + 2 < mm.length)]
  rw [annualRise_pos mm (i - 2) (by omega) (by omega),
      annualRise_pos mm (i - 1) (by omega) (by omega),
      annualRise_pos mm i (by omega) (by omega),
      annualRise_pos mm (i + 1) (by omega) (by omega),
      annualRise_pos mm (i + 2) (by omega) (by omega)]
  have e1 : i - 2 - 1 = i - 3 := by omega
  have e2 : i - 1 - 1 = i - 2 := by omega
  have e3 : i + 1 - 1 = i := by omega
  have e4 : i + 2 - 1 = i + 1 := by omega
  simp [e1, e2, e3, e4]

theorem movingAvg5_isSome_iff (mm : List Int) (i : Nat) :
    (movingAvg5 mm i).isSome ↔ (3 ≤ i ∧ i + 3 ≤ mm.length) := by
  constructor
  · intro h
    rw [movingAvg5] at h
    by_cases hc : 2 ≤ i ∧ i + 2 < mm.length
    · rw [if_pos hc] at h
      by_cases h2 : i = 2
      · subst h2
        rw [show (2 : Nat) - 2 = 0 from rfl, annualRise_zero] at h
        simp at h
      · omega
    · rw [if_neg hc] at h
      simp at h
  · intro h
    rw [movingAvg5_some mm i h.1 h.2]
    simp

theorem firstViolation_none (p : Measurement → Measurement → Bool) :
    ∀ (ms : List Measurement), firstViolation p ms = none →
    ∀ i (hi : i + 1 < ms.length),
      p (ms.get ⟨i, by omega⟩) (ms.get ⟨i + 1, hi⟩) = false
  | [] => by intro _ i hi; simp at hi
  | [a] => by intro _ i hi; simp at hi
  | a :: b :: t => by
    intro h i hi
    rw [firstViolation] at h
    cases hpb : p a b with
    | true => rw [hpb] at h; simp at h
    | false =>
      rw [hpb] at h
      simp only [Bool.false_eq_true, if_false, Option.map_eq_none'] at h
      match i with
      | 0 => exact hpb
      | Nat.succ k =>
        have hk : k + 1 < (b :: t).length := by
          simp at hi ⊢; omega
        exact firstViolation_none p (b :: t) h k hk

theorem firstViolation_some (p : Measurement → Measurement → Bool) :
    ∀ (ms : List Measurement) (j : Nat), firstViolation p ms = some j →
    1 ≤ j ∧ ∃ hj : j < ms.length,
      p (ms.get ⟨j - 1, by omega⟩) (ms.get ⟨j, hj⟩) = true
  | [] => by intro j h; simp [firstViolation] at h
  | [a] => by intro j h; simp [firstViolation] at h
  | a :: b :: t => by
    intro j h
    rw [firstViolation] at h
    cases hpb : p a b with
    | true =>
      rw [hpb] at h
      simp only [if_true] at h
      cases h
      exact ⟨by omega, by simp, hpb⟩
    | false =>
      rw [hpb] at h
      simp only [Bool.false_eq_true, if_false, Option.map_eq_some'] at h
      obtain ⟨j', hfv, hj'⟩ := h
      obtain ⟨h1', hlt, hp⟩ := firstViolation_some p (b :: t) j' hfv
      obtain ⟨m, rfl⟩ : ∃ m, j' = m + 1 := ⟨j' - 1, by omega⟩
      subst hj'
      refine ⟨by omega, ⟨by simp at hlt ⊢; omega, ?_⟩⟩
      simpa using hp

/-! ### Claim theorems -/

/-- C1: for every valid input, the derived annual delta at index 0 is the
explicit no-value marker `none` (never zero), and at every index `i ≥ 1` it
equals `cumulative_rise_mm[i] - cumulative_rise_mm[i-1]`; on the six-point
example the delta column is `[none, 2, 2, 3, 2, 3]`. -/
theorem C1_annual_delta :
    (∀ (ms : List Measurement) (ps : List SeriesPoint), build ms = .ok ps →
      (∀ h0 : 0 < ps.length, (ps.get ⟨0, h0⟩).annual_rise = none) ∧
      (∀ i (hi : i < ps.length), 1 ≤ i →
        (ps.get ⟨i, hi⟩).annual_rise =
          some ((ms.map Measurement.cumulative_rise_mm).getD i 0 -
                (ms.map Measurement.cumulative_rise_mm).getD (i - 1) 0))) ∧
    ex6Series.map SeriesPoint.annual_rise =
      [none, some 2, some 2, some 3, some 2, some 3] := by
  constructor
  · intro ms ps h
    have hps := build_ok ms ps h
    subst hps
    constructor
    · intro h0
      rw [seriesOf_get]
      exact annualRise_zero (ms.map Measurement.cumulative_rise_mm)
    · intro i hi h1
      have hi' : i < (ms.map Measurement.cumulative_rise_mm).length := by
        rw [seriesOf_length] at hi; exact hi
      rw [seriesOf_get]
      exact annualRise_pos _ i h1 hi'
  · decide

/-- C1 witness: the theorem applied to the six-point example at index 1. -/
theorem C1_annual_delta_witness :
    (ex6Series.get ⟨1, by decide⟩).annual_rise = some 2 :=
  ((C1_annual_delta.1 ex6 ex6Series rfl).2 1 (by decide) (by decide)).trans (by decide)

/-- C2 counterexample: the claim says the centered moving average is defined
iff `2 ≤ i ≤ n-3`. On the valid six-point example (`build` succeeds, so the
input is valid and `n = 6`), index 2 satisfies `2 ≤ 2 ≤ 6-3`, yet the
moving-average cell at index 2 is `none`: its centered window contains the
undefined delta at index 0, and pandas (`min_periods = 5`) therefore yields
`NaN`. -/
theorem C2_counterexample :
    build ex6 = .ok ex6Series ∧ ex6Series.length = 6 ∧
    2 ≤ 2 ∧ 2 ≤ 6 - 3 ∧
    (ex6Series.get ⟨2, by decide⟩).five_yr_avg = none :=
  ⟨rfl, by decide, by decide, by decide, by decide⟩

/-- C2 (amended): for every valid input of length `n`, the centered 5-year
moving average at index `i` is defined iff `3 ≤ i ≤ n-3` (index 2 is
additionally undefined because its window contains the undefined delta at
index 0), and where defined it equals the arithmetic mean of the annual
deltas at indices `i-2` through `i+2`. -/
theorem C2_moving_average (ms : List Measurement) (ps : List SeriesPoint)
    (h : build ms = .ok ps) (i : Nat) (hi : i < ps.length) :
    ((ps.get ⟨i, hi⟩).five_yr_avg ≠ none ↔ (3 ≤ i ∧ i + 3 ≤ ps.length)) ∧
    (∀ (h3 : 3 ≤ i) (hn : i + 3 ≤ ps.length),
      (ps.get ⟨i, hi⟩).five_yr_avg = some
        ((((ps.get ⟨i - 2, by omega⟩).annual_rise.getD 0 +
           (ps.get ⟨i - 1, by omega⟩).annual_rise.getD 0 +
           (ps.get ⟨i, hi⟩).annual_rise.getD 0 +
           (ps.get ⟨i + 1, by omega⟩).annual_rise.getD 0 +
           (ps.get ⟨i + 2, by omega⟩).annual_rise.getD 0 : Int) : ℚ) / 5)) := by
  have hps := build_ok ms ps h
  subst hps
  have hlen : (seriesOf (ms.map Measurement.year) (ms.map Measurement.cumulative_rise_mm)).length
      = (ms.map Measurement.cumulative_rise_mm).length := seriesOf_length _ _
  constructor
  · rw [seriesOf_get, Option.ne_none_iff_isSome, movingAvg5_isSome_iff, hlen]
  · intro h3 hn
    rw [hlen] at hn
    have hb2 : 1 ≤ i - 2 ∧ i - 2 < (ms.map Measurement.cumulative_rise_mm).length := by omega
    have hb1 : 1 ≤ i - 1 ∧ i - 1 < (ms.map Measurement.cumulative_rise_mm).length := by omega
    have hb0 : 1 ≤ i ∧ i < (ms.map Measurement.cumulative_rise_mm).length := by omega
    have ha1 : 1 ≤ i + 1 ∧ i + 1 < (ms.map Measurement.cumulative_rise_mm).length := by omega
    have ha2 : 1 ≤ i + 2 ∧ i + 2 < (ms.map Measurement.cumulative_rise_mm).length := by omega
    have e1 : i - 2 - 1 = i - 3 := by omega
    have e2 : i - 1 - 1 = i - 2 := by omega
    have e3 : i + 1 - 1 = i := by omega
    have e4 : i + 2 - 1 = i + 1 := by omega
    simp only [seriesOf_get]
    rw [movingAvg5_some _ i h3 hn,
        annualRise_pos _ (i - 2) hb2.1 hb2.2,
        annualRise_pos _ (i - 1) hb1.1 hb1.2,
        annualRise_pos _ i hb0.1 hb0.2,
        annualRise_pos _ (i + 1) ha1.1 ha1.2,
        annualRise_pos _ (i + 2) ha2.1 ha2.2]
    simp only [Option.getD_some, e1, e2, e3, e4]

/-- C2 witness: the amended theorem applied to the six-point example at
index 3, where the moving average equals `(2+2+3+2+3)/5 = 12/5`. -/
theorem C2_moving_average_witness :
    (ex6Series.get ⟨3, by decide⟩).five_yr_avg = some (12 / 5) := by
  rw [(C2_moving_average ex6 ex6Series rfl 3 (by decide)).2 (by decide) (by decide),
      (by decide : (ex6Series.get ⟨3 - 2, by decide⟩).annual_rise.getD 0 = 2),
      (by decide : (ex6Series.get ⟨3 - 1, by decide⟩).annual_rise.getD 0 = 2),
      (by decide : (ex6Series.get ⟨3, by decide⟩).annual_rise.getD 0 = 3),
      (by decide : (ex6Series.get ⟨3 + 1, by decide⟩).annual_rise.getD 0 = 2),
      (by decide : (ex6Series.get ⟨3 + 2, by decide⟩).annual_rise.getD 0 = 3)]
  norm_num

/-- C3: for every valid input, the builder's output has the input's length
and, index by index (so in input order), copies `year` and the cumulative
millimetre value unchanged and sets the centimetre value to the millimetre
value divided by 10. -/
theorem C3_row_copies (ms : List Measurement) (ps : List SeriesPoint)
    (h : build ms = .ok ps) :
    ps.length = ms.length ∧
    ∀ i (hi : i < ps.length),
      (ps.get ⟨i, hi⟩).year =
        (ms.get ⟨i, by rw [← build_ok_length ms ps h]; exact hi⟩).year ∧
      (ps.get ⟨i, hi⟩).sea_level_mm =
        (ms.get ⟨i, by rw [← build_ok_length ms ps h]; exact hi⟩).cumulative_rise_mm ∧
      (ps.get ⟨i, hi⟩).sea_level_cm =
        ((ms.get ⟨i, by rw [← build_ok_length ms ps h]; exact hi⟩).cumulative_rise_mm : ℚ) / 10 := by
  refine ⟨build_ok_length ms ps h, ?_⟩
  intro i hi
  have hms : i < ms.length := by rw [← build_ok_length ms ps h]; exact hi
  have hps := build_ok ms ps h
  subst hps
  rw [seriesOf_get]
  refine ⟨?_, ?_, ?_⟩
  · show (ms.map Measurement.year).getD i 0 = _
    rw [getD_map_get Measurement.year ms i hms]
  · show (ms.map Measurement.cumulative_rise_mm).getD i 0 = _
    rw [getD_map_get Measurement.cumulative_rise_mm ms i hms]
  · show ((ms.map Measurement.cumulative_rise_mm).getD i 0 : ℚ) / 10 = _
    rw [getD_map_get Measurement.cumulative_rise_mm ms i hms]

/-- C3 witness: the theorem applied to the six-point example at index 5. -/
theorem C3_row_copies_witness :
    (ex6Series.get ⟨5, by decide⟩).sea_level_cm = 6 / 5 := by
  have h := ((C3_row_copies ex6 ex6Series rfl).2 5 (by decide)).2.2
  rw [h, (by decide : (ex6.get ⟨5, by decide⟩).cumulative_rise_mm = 12)]
  norm_num

/-- C4: for every input with well-formed years that contains some index `i`
with `cumulative_rise_mm[i] < cumulative_rise_mm[i-1]`, the builder fails
with `NonMonotonicDataError` instead of returning an output sequence. -/
theorem C4_nonmonotonic_fails (ms : List Measurement)
    (hyears : firstViolation yearBad ms = none)
    (hviol : ∃ i, ∃ hi : i < ms.length, 1 ≤ i ∧
      (ms.get ⟨i, hi⟩).cumulative_rise_mm < (ms.get ⟨i - 1, by omega⟩).cumulative_rise_mm) :
    ∃ j, build ms = .error (.nonMonotonicData j) := by
  obtain ⟨i, hi, h1, hlt⟩ := hviol
  obtain ⟨k, rfl⟩ : ∃ k, i = k + 1 := ⟨i - 1, by omega⟩
  have hne : firstViolation monoBad ms ≠ none := by
    intro hnone
    have hfalse := firstViolation_none monoBad ms hnone k (by omega)
    simp only [monoBad, decide_eq_false_iff_not, not_lt] at hfalse
    simp only [Nat.add_sub_cancel] at hlt
    exact absurd hfalse (not_le.mpr hlt)
  obtain ⟨j, hj⟩ := Option.ne_none_iff_exists'.mp hne
  refine ⟨j, ?_⟩
  have hempty : ms.isEmpty = false := by
    cases ms with
    | nil => simp at hi
    | cons a t => rfl
  unfold build
  rw [hempty, hyears, hj]
  simp

/-- C4 witness: the theorem applied to the two-point decreasing input. -/
theorem C4_nonmonotonic_fails_witness :
    ∃ j, build exNonMono = .error (.nonMonotonicData j) :=
  C4_nonmonotonic_fails exNonMono rfl ⟨1, by decide, by decide, by decide⟩

/-- C5: for every input whose years are not strictly increasing by exactly
one per entry (somewhere the year at index `i ≥ 1` is not the previous year
plus one), the builder fails with an `InvalidInputError` that names an
offending index. -/
theorem C5_invalid_years_fails (ms : List Measurement)
    (hviol : ∃ i, ∃ hi : i < ms.length, 1 ≤ i ∧
      (ms.get ⟨i, hi⟩).year ≠ (ms.get ⟨i - 1, by omega⟩).year + 1) :
    ∃ j, ∃ hj : j < ms.length, 1 ≤ j ∧
      build ms = .error (.invalidInput j) ∧
      (ms.get ⟨j, hj⟩).year ≠ (ms.get ⟨j - 1, by omega⟩).year + 1 := by
  obtain ⟨i, hi, h1, hney⟩ := hviol
  obtain ⟨k, rfl⟩ : ∃ k, i = k + 1 := ⟨i - 1, by omega⟩
  have hne : firstViolation yearBad ms ≠ none := by
    intro hnone
    have hfalse := firstViolation_none yearBad ms hnone k (by omega)
    simp only [yearBad, decide_eq_false_iff_not, not_not] at hfalse
    simp only [Nat.add_sub_cancel] at hney
    exact absurd hfalse hney
  obtain ⟨j, hj⟩ := Option.ne_none_iff_exists'.mp hne
  obtain ⟨hj1, hjlt, hjp⟩ := firstViolation_some yearBad ms j hj
  refine ⟨j, hjlt, hj1, ?_, ?_⟩
  · have hempty : ms.isEmpty = false := by
      cases ms with
      | nil => simp at hi
      | cons a t => rfl
    unfold build
    rw [hempty, hj]
    simp
  · simpa [yearBad] using hjp

/-- C5 witness: the theorem applied to the two-point input with a year gap. -/
theorem C5_invalid_years_fails_witness :
    ∃ j, ∃ hj : j < exYearGap.length, 1 ≤ j ∧
      build exYearGap = .error (.invalidInput j) ∧
      (exYearGap.get ⟨j, hj⟩).year ≠ (exYearGap.get ⟨j - 1, by omega⟩).year + 1 :=
  C5_invalid_years_fails exYearGap ⟨1, by decide, by decide, by decide⟩

theorem avg_rise_value : avg_rise = 22 / 7 := by
  have hmm : (load_sea_level_data.getLastD emptyPoint).sea_level_mm = 110 := by decide
  rw [avg_rise, hmm]
  norm_num

/-- C6: the mean-annual-rate summary equals the last point's cumulative
millimetre value divided by the year span `last.year - first.year`; on the
repository fixture (baseline `(1989, 0)`, last entry `(2024, 110)`) this is
`110/35 = 22/7 ≈ 3.14` mm per year. -/
theorem C6_mean_annual_rate :
    avg_rise = ((load_sea_level_data.getLastD emptyPoint).sea_level_mm : ℚ) /
      (((load_sea_level_data.getLastD emptyPoint).year -
        (load_sea_level_data.headD emptyPoint).year : Int) : ℚ) ∧
    avg_rise = 110 / 35 ∧
    314 / 100 ≤ avg_rise ∧ avg_rise < 315 / 100 := by
  have hmm : (load_sea_level_data.getLastD emptyPoint).sea_level_mm = 110 := by decide
  have hly : (load_sea_level_data.getLastD emptyPoint).year = 2024 := by decide
  have hfy : (load_sea_level_data.headD emptyPoint).year = 1989 := by decide
  refine ⟨?_, ?_, ?_, ?_⟩
  · rw [hmm, hly, hfy, avg_rise_value]; norm_num
  · rw [avg_rise_value]; norm_num
  · rw [avg_rise_value]; norm_num
  · rw [avg_rise_value]; norm_num

/-- C7: the recent-rate summary is the arithmetic mean of the trailing five
raw annual deltas (`[4, 4, 4, 4, 5]` on the fixture, all defined, giving
`21/5 = 4.2`), it differs from the same statistic taken over the centered
moving-average column, and the comparison metric equals
`(recent_rate / mean_rate - 1) * 100 = 370/11`. -/
theorem C7_recent_rate :
    recent_5yr = some (21 / 5) ∧
    annualRiseColumn.drop (annualRiseColumn.length - 5) =
      [some 4, some 4, some 4, some 4, some 5] ∧
    recent_5yr ≠ recent_5yr_from_moving_avg_column ∧
    pct_vs_avg = recent_5yr.map (fun r => (r / avg_rise - 1) * 100) ∧
    pct_vs_avg = some (370 / 11) := by
  have htail : annualRiseColumn.drop (annualRiseColumn.length - 5) =
      [some ((4 : Int) : ℚ), some ((4 : Int) : ℚ), some ((4 : Int) : ℚ),
       some ((4 : Int) : ℚ), some ((5 : Int) : ℚ)] := rfl
  have hfm : ([some ((4 : Int) : ℚ), some ((4 : Int) : ℚ), some ((4 : Int) : ℚ),
      some ((4 : Int) : ℚ), some ((5 : Int) : ℚ)].filterMap id) =
      [((4 : Int) : ℚ), ((4 : Int) : ℚ), ((4 : Int) : ℚ), ((4 : Int) : ℚ),
       ((5 : Int) : ℚ)] := rfl
  have hrec : recent_5yr = some (21 / 5) := by
    rw [recent_5yr, htail]
    simp [meanDefined, hfm]
    norm_num
  have hmovtail : (load_sea_level_data.map (fun p => p.five_yr_avg)).drop
      ((load_sea_level_data.map (fun p => p.five_yr_avg)).length - 5) =
      [some (((20 : Int) : ℚ) / 5), some (((20 : Int) : ℚ) / 5),
       some (((21 : Int) : ℚ) / 5), none, none] := rfl
  have hfm2 : ([some (((20 : Int) : ℚ) / 5), some (((20 : Int) : ℚ) / 5),
      some (((21 : Int) : ℚ) / 5), none, none].filterMap id) =
      [((20 : Int) : ℚ) / 5, ((20 : Int) : ℚ) / 5, ((21 : Int) : ℚ) / 5] := rfl
  have hmov : recent_5yr_from_moving_avg_column = some (61 / 15) := by
    rw [recent_5yr_from_moving_avg_column]
    rw [hmovtail]
    simp [meanDefined, hfm2]
    norm_num
  refine ⟨hrec, ?_, ?_, rfl, ?_⟩
  · rw [htail]; norm_num
  · rw [hrec, hmov]; simp; norm_num
  · rw [pct_vs_avg, hrec, avg_rise_value]; simp; norm_num

/-- C8: on any single-measurement input the builder succeeds and returns
one point whose raw fields are copied, centimetres are millimetres over
10, and both derived fields are `none`; computing the mean-annual-rate
summary on that output fails with `DegenerateSeriesError`. -/
theorem C8_single_point (m : Measurement) :
    build [m] = .ok [{ year := m.year, sea_level_mm := m.cumulative_rise_mm,
                       sea_level_cm := (m.cumulative_rise_mm : ℚ) / 10,
                       annual_rise := none, five_yr_avg := none }] ∧
    mean_annual_rate [{ year := m.year, sea_level_mm := m.cumulative_rise_mm,
                        sea_level_cm := (m.cumulative_rise_mm : ℚ) / 10,
                        annual_rise := none, five_yr_avg := none }] =
      .error .degenerateSeries := by
  constructor
  · rfl
  · simp [mean_annual_rate]

/-- C9: the series computation is a pure function of its input: any two
evaluations of `build` on the same input sequence yield identical output,
so recomputation (including a memoised re-invocation) is always safe. -/
theorem C9_deterministic (ms : List Measurement)
    (r₁ r₂ : Except BuildError (List SeriesPoint))
    (h₁ : build ms = r₁) (h₂ : build ms = r₂) : r₁ = r₂ := h₁.symm.trans h₂

/-- C9 witness: the theorem applied to the six-point example. -/
theorem C9_deterministic_witness :
    (Except.ok ex6Series : Except BuildError (List SeriesPoint)) = Except.ok ex6Series :=
  C9_deterministic ex6 (Except.ok ex6Series) (Except.ok ex6Series) rfl rfl

/-- C10 counterexample: the downloaded file is `df.to_csv(index=False)`,
whose header has the dataframe's five columns — not exactly the three
columns `year`, `cumulative_rise_cm` (`sea_level_cm`), `annual_delta_mm`
(`annual_rise`) that the claim asserts. The three-column selection exists
only as the on-screen `display_df` table. -/
theorem C10_counterexample :
    csv_header.length = 5 ∧
    csv_header ≠ ["year", "sea_level_cm", "annual_rise"] ∧
    csv_header ≠ ["year", "cumulative_rise_cm", "annual_delta_mm"] ∧
    display_df_selected_columns.length = 3 :=
  ⟨rfl, by decide, by decide, rfl⟩

/-- C10 (amended): the exported delimited file has one row per series point
but carries all five dataframe columns (`year`, `sea_level_mm`,
`sea_level_cm`, `annual_rise`, `5yr_avg`); the three-column
year/centimetre/delta view is only the on-screen table. -/
theorem C10_export_columns :
    csv_header = ["year", "sea_level_mm", "sea_level_cm", "annual_rise", "5yr_avg"] ∧
    csv_rows.length = load_sea_level_data.length ∧
    csv_rows.all (fun r => r.length == 5) = true ∧
    display_df_selected_columns = ["year", "sea_level_cm", "annual_rise"] :=
  ⟨rfl, by simp [csv_rows], by decide, rfl⟩

/-- C8 witness: the theorem applied to the single measurement `(2024, 110)`. -/
theorem C8_single_point_witness :
    mean_annual_rate [{ year := (2024 : Int), sea_level_mm := 110,
                        sea_level_cm := ((110 : Int) : ℚ) / 10,
                        annual_rise := none, five_yr_avg := none }] =
      .error .degenerateSeries :=
  (C8_single_point ⟨2024, 110⟩).2
